import Mathlib

/-
Shallow embedding of `src/newsapi/connection.py` (class `NewsAPIConnection`),
a Streamlit adapter fetching news articles from the NewsAPI REST API.

Modelling conventions:
- JSON values are the inductive `Json`; numbers are modelled as integers
  (no claim involves non-integer payloads).
- The external HTTP world (`requests.get` plus body parsing) is a function
  from URL to `HttpOutcome`: either a raised `requests.exceptions.RequestException`
  (transport error) or a response carrying a status code and the result of
  parsing the body as JSON (`none` models a body that is not valid JSON,
  a `ValueError`/`JSONDecodeError` from `response.json()`).
- `response.raise_for_status()` raises `HTTPError` exactly for status codes
  in 400..599 (client and server errors), per the `requests` library.
- `st.error` messages are collected in a list (the user-facing error surface);
  the number of entries is the number of error-surface calls.
- `pd.DataFrame` is modelled on the inputs this adapter can feed it:
  a JSON array yields a frame whose rows are the array elements in order,
  `None` yields an empty frame, and a scalar raises
  `ValueError("DataFrame constructor not properly called!")`.
- `@cache_data(ttl=ttl)` is modelled as an explicit per-function cache
  (assoc list from the cached function's arguments to a value and insertion
  time); an entry is fresh while `now - insertedAt < ttl`; exceptions are
  not cached. Streamlit returns the cached value itself (up to copies).
- Python exceptions escaping the adapter are `Except.error`; a function that
  cannot raise has a non-`Except` result type.
-/

namespace NewsAPI

/-- JSON values as produced by parsing a response body. -/
inductive Json where
  | null
  | bool (b : Bool)
  | num (n : Int)
  | str (s : String)
  | arr (elems : List Json)
  | obj (fields : List (String × Json))


/-- Python exceptions that can escape the adapter (they are not caught by
`_make_api_request`, whose handler only covers `RequestException` and
`ValueError` raised inside its own `try`). -/
inductive PyError where
  | valueError (msg : String)
  | attributeError (msg : String)


/-- Outcome of `requests.get(url)` followed by body parsing, as provided by the
external world: a raised transport error, or a response with a status code and
the parsed body (`none` when the body is not valid JSON). -/
inductive HttpOutcome where
  | transportError (msg : String)
  | response (status : Nat) (body : Option Json)


/-- The external HTTP world: a deterministic outcome per URL. -/
abbrev World := String → HttpOutcome

/-- Message passed to `st.error`: the Python f-string
`f'Error: \x7be\x7d for URL: \x7burl\x7d'`. -/
def errorMessage (e : String) (url : String) : String :=
  "Error: " ++ e ++ " for URL: " ++ url

/-- Whether `response.raise_for_status()` raises: true exactly for the
4xx/5xx status codes (`requests` semantics). -/
def raise_for_status_raises (status : Nat) : Bool :=
  decide (400 ≤ status ∧ status < 600)

/-- `NewsAPIConnection._make_api_request`: GET the URL, raise for an error
status, parse the body as JSON; on `RequestException` or `ValueError` call
`st.error` and return `None`. Returns the parsed JSON (or `none`) together
with the list of messages sent to the error surface during the call. -/
def make_api_request (w : World) (url : String) : Option Json × List String :=
  match w url with
  | .transportError e => (none, [errorMessage e url])
  | .response status body =>
    if raise_for_status_raises status then
      (none, [errorMessage ("HTTPError: status " ++ toString status) url])
    else
      match body with
      | none => (none, [errorMessage "JSONDecodeError" url])
      | some j => (some j, [])

/-- First-match lookup in a JSON object's field list (Python dict lookup;
dicts built by `json` parsing have unique keys). -/
def jsonLookup : List (String × Json) → String → Option Json
  | [], _ => none
  | (k, v) :: rest, key => if k = key then some v else jsonLookup rest key

/-- Python `data.get(key, None)`: returns the value or `None`; raises
`AttributeError` when the receiver is not a dict (the parsed JSON body need
not be an object). -/
def pyGet (j : Json) (key : String) : Except PyError Json :=
  match j with
  | .obj fields => .ok ((jsonLookup fields key).getD .null)
  | _ => .error (.attributeError "object has no attribute get")

/-- A pandas DataFrame as this adapter builds one: an ordered list of rows,
each row the JSON value of the corresponding input record. -/
structure DataFrame where
  rows : List Json


/-- The values of one column: for each row, the field of that name
(missing field or non-object row gives the null/NaN cell). -/
def DataFrame.col (df : DataFrame) (name : String) : List Json :=
  df.rows.map fun r =>
    match r with
    | .obj fields => (jsonLookup fields name).getD .null
    | _ => .null

/-- `pd.DataFrame(x)` on the inputs reachable in this adapter: a list gives
rows in order, `None` gives an empty frame, and any scalar raises
`ValueError` (the constructor rejects scalar input). -/
def pdDataFrame : Json → Except PyError DataFrame
  | .null => .ok ⟨[]⟩
  | .arr elems => .ok ⟨elems⟩
  | _ => .error (.valueError "DataFrame constructor not properly called!")

/-- `NewsAPIConnection._to_dataframe`: `None` propagates; otherwise read the
`articles` key (default `None`) and build a DataFrame from it. Exceptions
from `.get` or the DataFrame constructor are not caught here. -/
def to_dataframe (data : Option Json) : Except PyError (Option DataFrame) :=
  match data with
  | none => .ok none
  | some j =>
    match pyGet j "articles" with
    | .error e => .error e
    | .ok articles => (pdDataFrame articles).map some

/-- Connection configuration established by `_connect`. -/
structure Config where
  key : String
  base : String


/-- The Streamlit secrets store: an association of secret names to values. -/
abbrev Secrets := List (String × String)

/-- First-match lookup in the secrets store. -/
def secretsLookup : Secrets → String → Option String
  | [], _ => none
  | (k, v) :: rest, key => if k = key then some v else secretsLookup rest key

/-- `NewsAPIConnection._connect`: read `NEWSAPI_KEY` and `NEWSAPI_BASE_URL`
from `st.secrets`; a missing name raises (propagates uncaught). -/
def connect (secrets : Secrets) : Except String Config :=
  match secretsLookup secrets "NEWSAPI_KEY" with
  | none => .error "KeyError: NEWSAPI_KEY"
  | some k =>
    match secretsLookup secrets "NEWSAPI_BASE_URL" with
    | none => .error "KeyError: NEWSAPI_BASE_URL"
    | some b => .ok ⟨k, b⟩

/-- One entry of a `cache_data` cache: the cached return value and the time
it was stored. -/
structure CacheEntry where
  value : Option DataFrame
  insertedAt : Nat


/-- Cache of the inner `_query` of `query`, keyed by `topic`. -/
abbrev QueryCache := List (String × CacheEntry)

/-- Cache of the inner `_query` of `top`, keyed by `(country, category)`. -/
abbrev TopCache := List ((String × String) × CacheEntry)

/-- First-match lookup in a cache (insertion prepends, so the newest entry
for a key wins). -/
def cacheLookup {α : Type} [DecidableEq α] :
    List (α × CacheEntry) → α → Option CacheEntry
  | [], _ => none
  | (k, e) :: rest, key => if k = key then some e else cacheLookup rest key

/-- Adapter state: the immutable configuration plus the two function caches. -/
structure Conn where
  cfg : Config
  queryCache : QueryCache
  topCache : TopCache


/-- Observable outcome of one `query`/`top` call: the returned value (or the
escaped exception), the updated adapter state, the messages sent to the error
surface, and the URLs of the outbound requests issued during the call. -/
structure CallResult where
  result : Except PyError (Option DataFrame)
  conn : Conn
  errors : List String
  requestsIssued : List String


/-- The URL built by `query`:
`f"\x7bself.base\x7beverything?q=\x7btopic\x7d&apiKey=\x7bself.key\x7d"`. -/
def queryUrl (cfg : Config) (topic : String) : String :=
  cfg.base ++ "everything?q=" ++ topic ++ "&apiKey=" ++ cfg.key

/-- The URL built by `top`. -/
def topUrl (cfg : Config) (country category : String) : String :=
  cfg.base ++ "top-headlines?country=" ++ country ++ "&category=" ++
    category ++ "&apiKey=" ++ cfg.key

/-- The uncached body of `query`'s inner `_query`: build the URL, request,
shape; on normal return the result is stored in the cache, an exception is
not cached. -/
def queryMiss (w : World) (conn : Conn) (topic : String) (now : Nat) :
    CallResult :=
  let url := queryUrl conn.cfg topic
  let fetched := make_api_request w url
  match to_dataframe fetched.1 with
  | .error e =>
    { result := .error e, conn := conn, errors := fetched.2,
      requestsIssued := [url] }
  | .ok df =>
    { result := .ok df,
      conn := { conn with
        queryCache := (topic, ⟨df, now⟩) :: conn.queryCache },
      errors := fetched.2,
      requestsIssued := [url] }

/-- `NewsAPIConnection.query(topic, ttl)` at time `now`: return the cached
value when a fresh entry exists for `topic`, else run the body and cache its
return value. -/
def query (w : World) (conn : Conn) (topic : String) (ttl now : Nat) :
    CallResult :=
  match cacheLookup conn.queryCache topic with
  | some e =>
    if now - e.insertedAt < ttl then
      { result := .ok e.value, conn := conn, errors := [],
        requestsIssued := [] }
    else
      queryMiss w conn topic now
  | none => queryMiss w conn topic now

/-- The uncached body of `top`'s inner `_query`. -/
def topMiss (w : World) (conn : Conn) (country category : String)
    (now : Nat) : CallResult :=
  let url := topUrl conn.cfg country category
  let fetched := make_api_request w url
  match to_dataframe fetched.1 with
  | .error e =>
    { result := .error e, conn := conn, errors := fetched.2,
      requestsIssued := [url] }
  | .ok df =>
    { result := .ok df,
      conn := { conn with
        topCache := ((country, category), ⟨df, now⟩) :: conn.topCache },
      errors := fetched.2,
      requestsIssued := [url] }

/-- `NewsAPIConnection.top(country, category, ttl)` at time `now`. -/
def top (w : World) (conn : Conn) (country category : String)
    (ttl now : Nat) : CallResult :=
  match cacheLookup conn.topCache (country, category) with
  | some e =>
    if now - e.insertedAt < ttl then
      { result := .ok e.value, conn := conn, errors := [],
        requestsIssued := [] }
    else
      topMiss w conn country category now
  | none => topMiss w conn country category now

/-- A fetch outcome on which `_make_api_request` takes its error path:
a transport error, a 4xx/5xx status, or an unparseable body. -/
def requestFails : HttpOutcome → Bool
  | .transportError _ => true
  | .response status body =>
    raise_for_status_raises status || body.isNone

/-- An `articles` value the DataFrame constructor accepts without raising:
`null` (also the default for a missing key) or an array. -/
def goodArticles : Json → Bool
  | .null => true
  | .arr _ => true
  | _ => false

/-- A connection with empty caches, used to evaluate calls concretely. -/
def conn0 : Conn := ⟨⟨"KEY", "https://api.example/"⟩, [], []⟩

/-- A world that answers every URL with HTTP 500 and an empty body. -/
def world500 : World := fun _ => .response 500 none

/-- A world that answers every URL with HTTP 304 Not Modified and a JSON
object body. -/
def world304 : World := fun _ => .response 304 (some (.obj []))

section Lemmas

theorem cacheLookup_cons_self {α : Type} [DecidableEq α]
    (k : α) (e : CacheEntry) (rest : List (α × CacheEntry)) :
    cacheLookup ((k, e) :: rest) k = some e := by
  simp [cacheLookup]

theorem query_eq_queryMiss (w : World) (conn : Conn) (topic : String)
    (ttl now : Nat) (hmiss : cacheLookup conn.queryCache topic = none) :
    query w conn topic ttl now = queryMiss w conn topic now := by
  unfold query
  rw [hmiss]

theorem top_eq_topMiss (w : World) (conn : Conn) (country category : String)
    (ttl now : Nat) (hmiss : cacheLookup conn.topCache (country, category) = none) :
    top w conn country category ttl now = topMiss w conn country category now := by
  unfold top
  rw [hmiss]

theorem query_hit (w : World) (conn : Conn) (topic : String)
    (ttl now : Nat) (e : CacheEntry)
    (h : cacheLookup conn.queryCache topic = some e)
    (hf : now - e.insertedAt < ttl) :
    query w conn topic ttl now =
      { result := .ok e.value, conn := conn, errors := [],
        requestsIssued := [] } := by
  unfold query
  rw [h]
  simp [hf]

theorem queryMiss_ok (w : World) (conn : Conn) (topic : String) (now : Nat)
    (df : Option DataFrame)
    (h : to_dataframe (make_api_request w (queryUrl conn.cfg topic)).1 = .ok df) :
    queryMiss w conn topic now =
      { result := .ok df,
        conn := { conn with
          queryCache := (topic, ⟨df, now⟩) :: conn.queryCache },
        errors := (make_api_request w (queryUrl conn.cfg topic)).2,
        requestsIssued := [queryUrl conn.cfg topic] } := by
  simp only [queryMiss]
  rw [h]

theorem queryMiss_requests (w : World) (conn : Conn) (topic : String)
    (now : Nat) :
    (queryMiss w conn topic now).requestsIssued = [queryUrl conn.cfg topic] := by
  simp only [queryMiss]
  cases h : to_dataframe (make_api_request w (queryUrl conn.cfg topic)).1 <;>
    simp [h]

theorem topMiss_requests (w : World) (conn : Conn) (country category : String)
    (now : Nat) :
    (topMiss w conn country category now).requestsIssued =
      [topUrl conn.cfg country category] := by
  simp only [topMiss]
  cases h : to_dataframe (make_api_request w (topUrl conn.cfg country category)).1 <;>
    simp [h]

theorem queryMiss_cfg (w : World) (conn : Conn) (topic : String) (now : Nat) :
    (queryMiss w conn topic now).conn.cfg = conn.cfg := by
  simp only [queryMiss]
  cases h : to_dataframe (make_api_request w (queryUrl conn.cfg topic)).1 <;>
    simp [h]

theorem topMiss_cfg (w : World) (conn : Conn) (country category : String)
    (now : Nat) :
    (topMiss w conn country category now).conn.cfg = conn.cfg := by
  simp only [topMiss]
  cases h : to_dataframe (make_api_request w (topUrl conn.cfg country category)).1 <;>
    simp [h]

theorem make_api_request_eq_of_fails (w : World) (url : String)
    (h : requestFails (w url) = true) :
    ∃ m, make_api_request w url = (none, [m]) := by
  unfold requestFails at h
  unfold make_api_request
  cases hw : w url with
  | transportError e => exact ⟨_, rfl⟩
  | response s b =>
    rw [hw] at h
    simp only [Bool.or_eq_true] at h
    by_cases hr : raise_for_status_raises s = true
    · simp only [hr, if_true]
      exact ⟨_, rfl⟩
    · rcases h with h | h
      · exact absurd h hr
      · rw [Option.isNone_iff_eq_none] at h
        subst h
        rw [Bool.not_eq_true] at hr
        simp only [hr, Bool.false_eq_true, if_false]
        exact ⟨_, rfl⟩

end Lemmas

/-- C1 counterexample: a response with the non-2xx status 304 and a valid
JSON body makes `_make_api_request` return the parsed body with no
error-surface call, because `raise_for_status` only raises for 4xx/5xx; so
"non-2xx status implies error reported and absent returned" is false. -/
theorem c1_counterexample :
    world304 "u" = HttpOutcome.response 304 (some (Json.obj [])) ∧
    ¬ (200 ≤ 304 ∧ 304 < 300) ∧
    make_api_request world304 "u" = (some (Json.obj []), []) :=
  ⟨rfl, by decide, rfl⟩

/-- C1 (amended): if the GET raises a transport error, the response has a
4xx/5xx status, or the body fails to parse as JSON, then `_make_api_request`
sends exactly one message to the user-facing error surface and returns
absent; through `query` and `top` (on a cache miss for that URL) the call
returns `Except.ok none` — absent, with no exception escaping — and exactly
one error-surface call is made. -/
theorem make_api_request_failure_is_absorbed (w : World) (url : String)
    (h : requestFails (w url) = true) :
    (make_api_request w url).1 = none ∧
    (make_api_request w url).2.length = 1 ∧
    (∀ (conn : Conn) (topic : String) (ttl now : Nat),
      cacheLookup conn.queryCache topic = none →
      queryUrl conn.cfg topic = url →
      (query w conn topic ttl now).result = Except.ok none ∧
      (query w conn topic ttl now).errors.length = 1) ∧
    (∀ (conn : Conn) (country category : String) (ttl now : Nat),
      cacheLookup conn.topCache (country, category) = none →
      topUrl conn.cfg country category = url →
      (top w conn country category ttl now).result = Except.ok none ∧
      (top w conn country category ttl now).errors.length = 1) := by
  obtain ⟨m, hm⟩ := make_api_request_eq_of_fails w url h
  refine ⟨by rw [hm], by rw [hm]; rfl, ?_, ?_⟩
  · intro conn topic ttl now hc hurl
    rw [query_eq_queryMiss w conn topic ttl now hc]
    have hd : to_dataframe (make_api_request w (queryUrl conn.cfg topic)).1 =
        .ok none := by
      rw [hurl, hm]
      rfl
    rw [queryMiss_ok w conn topic now none hd]
    exact ⟨rfl, by rw [hurl, hm]; rfl⟩
  · intro conn country category ttl now hc hurl
    rw [top_eq_topMiss w conn country category ttl now hc]
    have hd : to_dataframe
        (make_api_request w (topUrl conn.cfg country category)).1 =
        .ok none := by
      rw [hurl, hm]
      rfl
    simp only [topMiss]
    rw [hd, hurl, hm]
    exact ⟨rfl, rfl⟩

/-- C1 witness: with a mocked 500 response, `query("x")` on an empty cache
returns absent and makes exactly one error-surface call. -/
theorem make_api_request_failure_is_absorbed_witness :
    (query world500 conn0 "x" 3600 0).result = Except.ok none ∧
    (query world500 conn0 "x" 3600 0).errors.length = 1 :=
  (make_api_request_failure_is_absorbed world500 (queryUrl conn0.cfg "x")
    rfl).2.2.1 conn0 "x" 3600 0 rfl rfl

/-- C3: on a cache miss, `query(topic)` issues exactly one outbound request,
whose URL is the literal concatenation
`base ++ "everything?q=" ++ topic ++ "&apiKey=" ++ key` — the topic is
interpolated directly, with no percent-encoding, for every topic string. -/
theorem query_issues_exact_url (w : World) (conn : Conn) (topic : String)
    (ttl now : Nat)
    (hmiss : cacheLookup conn.queryCache topic = none) :
    (query w conn topic ttl now).requestsIssued =
      [conn.cfg.base ++ "everything?q=" ++ topic ++ "&apiKey=" ++
        conn.cfg.key] := by
  rw [query_eq_queryMiss w conn topic ttl now hmiss]
  exact queryMiss_requests w conn topic now

/-- C3 witness: a concrete cache-miss call issues exactly the expected URL,
including for a topic containing unencoded special characters. -/
theorem query_issues_exact_url_witness :
    (query world500 conn0 "a&b c" 3600 0).requestsIssued =
      ["https://api.example/everything?q=a&b c&apiKey=KEY"] :=
  query_issues_exact_url world500 conn0 "a&b c" 3600 0 rfl

/-- C8: on a cache miss, `top(country, category)` issues exactly one
outbound request, whose URL is the literal concatenation
`base ++ "top-headlines?country=" ++ country ++ "&category=" ++ category ++
"&apiKey=" ++ key`, with no validation or encoding of either argument. -/
theorem top_issues_exact_url (w : World) (conn : Conn)
    (country category : String) (ttl now : Nat)
    (hmiss : cacheLookup conn.topCache (country, category) = none) :
    (top w conn country category ttl now).requestsIssued =
      [conn.cfg.base ++ "top-headlines?country=" ++ country ++
        "&category=" ++ category ++ "&apiKey=" ++ conn.cfg.key] := by
  rw [top_eq_topMiss w conn country category ttl now hmiss]
  exact topMiss_requests w conn country category now

/-- C8 witness: a concrete cache-miss call to `top` issues exactly the
expected URL, with the unvalidated arguments interpolated verbatim. -/
theorem top_issues_exact_url_witness :
    (top world500 conn0 "not a country" "busi&ness" 3600 0).requestsIssued =
      ["https://api.example/top-headlines?country=not a country&category=busi&ness&apiKey=KEY"] :=
  top_issues_exact_url world500 conn0 "not a country" "busi&ness" 3600 0 rfl

/-- C9: the connection configuration (API key and base URL) is unchanged by
every call to `query` and to `top`; only the caches are updated. -/
theorem config_never_mutated (w : World) (conn : Conn)
    (topic country category : String) (ttl now : Nat) :
    (query w conn topic ttl now).conn.cfg = conn.cfg ∧
    (top w conn country category ttl now).conn.cfg = conn.cfg := by
  constructor
  · unfold query
    cases cacheLookup conn.queryCache topic with
    | none => exact queryMiss_cfg w conn topic now
    | some e =>
      by_cases hf : now - e.insertedAt < ttl
      · simp [hf]
      · simp [hf, queryMiss_cfg w conn topic now]
  · unfold top
    cases cacheLookup conn.topCache (country, category) with
    | none => exact topMiss_cfg w conn country category now
    | some e =>
      by_cases hf : now - e.insertedAt < ttl
      · simp [hf]
      · simp [hf, topMiss_cfg w conn country category now]

/-- C2: starting with no cache entry for `topic`, a first `query(topic)` call
at time `t1` issues exactly one outbound request and caches whatever value it
returned (including an absent result); a second call at any time `t2` with
`t2 - t1 < ttl` issues no request, leaves the state unchanged, and returns
the identical value — so the two calls issue at most one request in total and
a failed result is sticky for the full ttl. -/
theorem query_twice_within_ttl (w : World) (conn : Conn) (topic : String)
    (ttl t1 t2 : Nat) (v : Option DataFrame)
    (hmiss : cacheLookup conn.queryCache topic = none)
    (hlt : t2 - t1 < ttl)
    (hok : (query w conn topic ttl t1).result = Except.ok v) :
    query w (query w conn topic ttl t1).conn topic ttl t2 =
      { result := Except.ok v, conn := (query w conn topic ttl t1).conn,
        errors := [], requestsIssued := [] } ∧
    (query w conn topic ttl t1).requestsIssued = [queryUrl conn.cfg topic] := by
  rw [query_eq_queryMiss w conn topic ttl t1 hmiss] at hok ⊢
  cases hd : to_dataframe (make_api_request w (queryUrl conn.cfg topic)).1 with
  | error e =>
    exfalso
    have : (queryMiss w conn topic t1).result = Except.error e := by
      simp only [queryMiss]
      rw [hd]
    rw [this] at hok
    exact absurd hok (by simp)
  | ok df =>
    rw [queryMiss_ok w conn topic t1 df hd] at hok ⊢
    have hdv : df = v := by simpa using hok
    subst hdv
    refine ⟨?_, rfl⟩
    exact query_hit w _ topic ttl t2 ⟨df, t1⟩
      (cacheLookup_cons_self topic ⟨df, t1⟩ conn.queryCache) hlt

/-- C2 witness: with a mocked 500 response the first call caches the absent
result; a second call 5 seconds later (ttl 10) issues no request and returns
the same absent result. -/
theorem query_twice_within_ttl_witness :
    query world500 (query world500 conn0 "x" 10 0).conn "x" 10 5 =
      { result := Except.ok none, conn := (query world500 conn0 "x" 10 0).conn,
        errors := [], requestsIssued := [] } :=
  (query_twice_within_ttl world500 conn0 "x" 10 0 5 none rfl (by decide) rfl).1

/-- C4: whenever the fetch succeeds (2xx-style status that does not raise,
parseable body) and the parsed JSON's `articles` key holds an array, the
table returned by `query` has exactly those array elements as its rows,
field for field and in the same order. -/
theorem query_result_rows_are_articles (w : World) (conn : Conn)
    (topic : String) (ttl now s : Nat) (j : Json) (xs : List Json)
    (hmiss : cacheLookup conn.queryCache topic = none)
    (hw : w (queryUrl conn.cfg topic) = .response s (some j))
    (hs : raise_for_status_raises s = false)
    (ha : pyGet j "articles" = .ok (Json.arr xs)) :
    (query w conn topic ttl now).result = Except.ok (some ⟨xs⟩) ∧
    (DataFrame.mk xs).rows = xs := by
  have hreq : make_api_request w (queryUrl conn.cfg topic) = (some j, []) := by
    unfold make_api_request
    rw [hw]
    simp [hs]
  have hd : to_dataframe (make_api_request w (queryUrl conn.cfg topic)).1 =
      .ok (some ⟨xs⟩) := by
    rw [hreq]
    show to_dataframe (some j) = _
    simp only [to_dataframe, ha]
    rfl
  rw [query_eq_queryMiss w conn topic ttl now hmiss,
    queryMiss_ok w conn topic now (some ⟨xs⟩) hd]
  exact ⟨rfl, rfl⟩

/-- A world whose 200 response carries one article. -/
def worldArticles : World :=
  fun _ => .response 200 (some (.obj [("articles",
    .arr [.obj [("title", .str "A")]])]))

/-- C4 witness: a concrete successful fetch whose `articles` array has one
element yields exactly that element as the single row. -/
theorem query_result_rows_are_articles_witness :
    (query worldArticles conn0 "x" 3600 0).result =
      Except.ok (some ⟨[Json.obj [("title", Json.str "A")]]⟩) :=
  (query_result_rows_are_articles worldArticles conn0 "x" 3600 0 200
    (Json.obj [("articles", Json.arr [Json.obj [("title", Json.str "A")]])])
    [Json.obj [("title", Json.str "A")]] rfl rfl rfl rfl).1

/-- A world answering every URL with the mocked body
`\x7b"articles": [\x7b"title":"A"\x7d,\x7b"title":"B"\x7d]\x7d`. -/
def worldTop : World :=
  fun _ => .response 200 (some (.obj [("articles",
    .arr [.obj [("title", .str "A")], .obj [("title", .str "B")]])]))

/-- C5: with the mocked response above, `top("us", "business")` returns a
table with exactly 2 rows whose `title` column is `["A", "B"]` in order. -/
theorem top_mocked_two_titles :
    (top worldTop conn0 "us" "business" 3600 0).result =
      Except.ok (some ⟨[Json.obj [("title", Json.str "A")],
        Json.obj [("title", Json.str "B")]]⟩) ∧
    (DataFrame.mk [Json.obj [("title", Json.str "A")],
        Json.obj [("title", Json.str "B")]]).rows.length = 2 ∧
    (DataFrame.mk [Json.obj [("title", Json.str "A")],
        Json.obj [("title", Json.str "B")]]).col "title" =
      [Json.str "A", Json.str "B"] :=
  ⟨rfl, rfl, rfl⟩

/-- C6: for a body `\x7b"articles": null\x7d` and for a body `\x7b\x7d` with
no `articles` key, the shaping step reads the key as null and both inputs
produce the same outcome: an empty table. -/
theorem to_dataframe_null_and_missing_articles :
    to_dataframe (some (Json.obj [("articles", Json.null)])) =
      Except.ok (some ⟨[]⟩) ∧
    to_dataframe (some (Json.obj [])) = Except.ok (some ⟨[]⟩) :=
  ⟨rfl, rfl⟩

/-- C7: `_connect` succeeds exactly when both `NEWSAPI_KEY` and
`NEWSAPI_BASE_URL` are present in the secret store, in which case the stored
key and base URL are exactly the two secret values (no fallback); if either
is missing, initialization fails with a propagated error. -/
theorem connect_reads_required_secrets (s : Secrets) :
    (∀ cfg : Config, connect s = Except.ok cfg ↔
      secretsLookup s "NEWSAPI_KEY" = some cfg.key ∧
      secretsLookup s "NEWSAPI_BASE_URL" = some cfg.base) ∧
    ((secretsLookup s "NEWSAPI_KEY" = none ∨
      secretsLookup s "NEWSAPI_BASE_URL" = none) →
      ∃ e, connect s = Except.error e) := by
  unfold connect
  cases hk : secretsLookup s "NEWSAPI_KEY" with
  | none =>
    constructor
    · intro cfg
      simp
    · intro _
      exact ⟨_, rfl⟩
  | some k =>
    cases hb : secretsLookup s "NEWSAPI_BASE_URL" with
    | none =>
      constructor
      · intro cfg
        simp
      · intro _
        exact ⟨_, rfl⟩
    | some b =>
      constructor
      · rintro ⟨ck, cb⟩
        simp [Config.mk.injEq]
      · rintro (h | h) <;> cases h

/-- C7 witness: with both secrets present, `_connect` returns exactly the
stored values. -/
theorem connect_reads_required_secrets_witness :
    connect [("NEWSAPI_KEY", "k"), ("NEWSAPI_BASE_URL", "b")] =
      Except.ok ⟨"k", "b"⟩ :=
  ((connect_reads_required_secrets
    [("NEWSAPI_KEY", "k"), ("NEWSAPI_BASE_URL", "b")]).1 ⟨"k", "b"⟩).mpr
    ⟨rfl, rfl⟩

/-- A world whose 200 response carries a scalar `articles` value. -/
def worldScalarArticles : World :=
  fun _ => .response 200 (some (.obj [("articles", .str "boom")]))

/-- C10 counterexample: a fetched body that parses to
`\x7b"articles": "boom"\x7d` makes `_to_dataframe` raise `ValueError` from
the DataFrame constructor — it yields neither a table nor absent, and the
exception escapes `query`; so "a parsed response always yields a table,
never absent" is false as stated. -/
theorem c10_counterexample :
    to_dataframe (some (Json.obj [("articles", Json.str "boom")])) =
      Except.error (PyError.valueError
        "DataFrame constructor not properly called!") ∧
    (query worldScalarArticles conn0 "x" 3600 0).result =
      Except.error (PyError.valueError
        "DataFrame constructor not properly called!") :=
  ⟨rfl, rfl⟩

/-- C10 (amended): `_to_dataframe` maps an absent fetch to absent; whenever
the parsed body is an object whose `articles` value is null, missing, or an
array, it returns a table and never absent; and an absent output only ever
comes from an absent input — so, for such bodies, `query` and `top` return
absent exactly when the HTTP request or JSON parse failed, while other
`articles` shapes make the table constructor raise. -/
theorem to_dataframe_total_on_wellformed :
    to_dataframe none = Except.ok none ∧
    (∀ fields : List (String × Json),
      goodArticles ((jsonLookup fields "articles").getD Json.null) = true →
      ∃ df : DataFrame, to_dataframe (some (Json.obj fields)) =
        Except.ok (some df)) ∧
    (∀ data : Option Json,
      to_dataframe data = Except.ok none → data = none) := by
  refine ⟨rfl, ?_, ?_⟩
  · intro fields hg
    unfold to_dataframe
    simp only [pyGet]
    cases ha : (jsonLookup fields "articles").getD Json.null with
    | null => exact ⟨⟨[]⟩, rfl⟩
    | arr xs => exact ⟨⟨xs⟩, rfl⟩
    | bool b => rw [ha] at hg; simp [goodArticles] at hg
    | num n => rw [ha] at hg; simp [goodArticles] at hg
    | str t => rw [ha] at hg; simp [goodArticles] at hg
    | obj f => rw [ha] at hg; simp [goodArticles] at hg
  · intro data h
    cases data with
    | none => rfl
    | some j =>
      unfold to_dataframe at h
      cases hp : pyGet j "articles" with
      | error e => simp [hp] at h
      | ok a =>
        simp only [hp] at h
        cases hd : pdDataFrame a with
        | error e => simp [hd, Except.map] at h
        | ok df => simp [hd, Except.map] at h

/-- C10 witness: an object body whose `articles` value is an array yields a
table. -/
theorem to_dataframe_total_on_wellformed_witness :
    ∃ df : DataFrame,
      to_dataframe (some (Json.obj [("articles", Json.arr [])])) =
        Except.ok (some df) :=
  to_dataframe_total_on_wellformed.2.1 [("articles", Json.arr [])] rfl

end NewsAPI
